import Mathlib

/-!
Verification of the `soap` repository (salt-die/soap).

The repository contains two near-duplicate pygame scripts, `soap.py` and
`voronoi.py`, simulating moving Voronoi cell centers.  We embed the pure
numeric/list logic of both variants:

* `Soap` models `soap.py`: class `Center` with a vector-norm velocity clamp,
  inverse-cube poke guarded by `distance != 0`, set-difference removal of
  out-of-bounds centers, reset inset by the velocity cap, window 800x800.
* `Vor` models `voronoi.py`: per-axis velocity clamp to [-15, 15],
  inverse-square poke capped at 200 with an epsilon distance substitution,
  comprehension-based out-of-bounds list, `randint(0,999)` reset,
  window 1000x1000.

Real-valued quantities (positions, velocities, norms) are embedded as `ℝ`,
with `Real.sqrt` for `numpy.linalg.norm`; purely structural data (Voronoi
region index lists) use `ℚ`/`ℤ` so the region-filtering logic is decidable.
-/

namespace Soap

/-- A 2D vector, as used for `loc` and `velocity` in `soap.py`. -/
abbrev Vec := ℝ × ℝ

/-- Componentwise addition already comes from the product instance; scalar
multiplication of a 2D vector, `c * v` in numpy broadcasting. -/
def smul (c : ℝ) (v : Vec) : Vec := (c * v.1, c * v.2)

/-- Euclidean norm of a 2D vector: `numpy.linalg.norm`. -/
noncomputable def vnorm (v : Vec) : ℝ := Real.sqrt (v.1 ^ 2 + v.2 ^ 2)

/-- `max_vel = 15.0` in `soap.py` (`game`, line 404). -/
def max_vel : ℝ := 15

/-- Window dimensions `window_dim = array([800.0, 800.0])`. -/
def window_dim : ℝ := 800

/-- The jitter-prevention step of `Center.friction`:
`self.velocity[abs(self.velocity) < .01] = 0.0`, componentwise. -/
noncomputable def zero_small (v : Vec) : Vec :=
  ((if |v.1| < 0.01 then 0 else v.1), (if |v.2| < 0.01 then 0 else v.2))

/-- The velocity-magnitude clamp shared by `Center.friction` and
`Center.delta_velocity`:
`magnitude = norm(self.velocity); if magnitude > self.max_vel:
 self.velocity *= self.max_vel / magnitude`. -/
noncomputable def clamp (v : Vec) : Vec :=
  if vnorm v > max_vel then smul (max_vel / vnorm v) v else v

/-- `Center.friction` (`soap.py` lines 27-39) acting on the velocity:
multiply by the friction constant 0.97, zero out components below 0.01,
then clamp the magnitude to `max_vel`. -/
noncomputable def friction (v : Vec) : Vec :=
  clamp (zero_small (smul 0.97 v))

/-- `Center.delta_velocity` (`soap.py` lines 41-49) acting on the velocity:
add `delta`, then clamp the magnitude to `max_vel`. -/
noncomputable def delta_velocity (v delta : Vec) : Vec :=
  clamp (v + delta)

/-- A cell center: `loc` and `velocity` (the `max_vel` field is the constant
15.0 at every construction site in `soap.py`). -/
structure Center where
  loc : Vec
  velocity : Vec

/-- Division that records the divide-by-zero failure mode of Python floats:
`none` exactly when the divisor is zero. -/
noncomputable def cdiv (a b : ℝ) : Option ℝ :=
  if b = 0 then none else some (a / b)

/-- Componentwise checked division of a vector by a scalar. -/
noncomputable def cdivV (v : Vec) (b : ℝ) : Option Vec :=
  if b = 0 then none else some (v.1 / b, v.2 / b)

/-- `poke_power` (`soap.py` lines 346-353), with the division by
`distance**3` modelled as checked division:
`return 100000 * difference/distance**3 if distance != 0 else 0`.
The `else` branch returns the scalar 0, which numpy broadcasting turns into
the zero velocity delta. -/
noncomputable def poke_power_checked (poke_loc center_loc : Vec) : Option Vec :=
  if vnorm (center_loc - poke_loc) ≠ 0 then
    cdivV (smul 100000 (center_loc - poke_loc)) (vnorm (center_loc - poke_loc) ^ 3)
  else
    some (0, 0)

/-- The value of `poke_power`; `poke_power_checked` never returns `none`
(see `poke_power_checked_isSome`), so the default is never used. -/
noncomputable def poke_power (poke_loc center_loc : Vec) : Vec :=
  (poke_power_checked poke_loc center_loc).getD (0, 0)

/-- The effect of `poke` (`soap.py` lines 355-357) on one center:
`center.delta_velocity(poke_power(loc, center.loc))`. -/
noncomputable def poke_center (loc : Vec) (c : Center) : Center :=
  { c with velocity := delta_velocity c.velocity (poke_power loc c.loc) }

/-- Python float modulo with a positive modulus, as in
`color_center.loc %= window_dim` (`soap.py` line 113):
`x % m = x - m * floor(x / m)`. -/
noncomputable def wrap (x m : ℝ) : ℝ := x - m * ⌊x / m⌋

/-- The directional flags `up`, `down`, `left`, `right` of `booleans_dict`. -/
structure MoveFlags where
  up : Bool
  down : Bool
  lt : Bool
  rt : Bool

/-- The color-center portion of `move_centers` (`soap.py` lines 95-113):
with no directional flag set, friction then move; otherwise apply a
0.5-unit `delta_velocity` per set flag (in source order up, down, left,
right) then move; finally wrap both coordinates modulo `window_dim`. -/
noncomputable def move_focus (f : MoveFlags) (c : Center) : Center :=
  let c1 :=
    if ¬(f.up || f.down || f.lt || f.rt) then
      let v := friction c.velocity
      Center.mk (c.loc + v) v
    else
      let v1 := if f.up then delta_velocity c.velocity (0, -0.5) else c.velocity
      let v2 := if f.down then delta_velocity v1 (0, 0.5) else v1
      let v3 := if f.lt then delta_velocity v2 (-0.5, 0) else v2
      let v4 := if f.rt then delta_velocity v3 (0.5, 0) else v3
      Center.mk (c.loc + v4) v4
  Center.mk (wrap c1.loc.1 window_dim, wrap c1.loc.2 window_dim) c1.velocity

/-- Whether a center is strictly outside the arena on some axis:
`((center.loc < 0)|(window_dim < center.loc)).any()` (`soap.py` line 89). -/
def oobPred (c : Center) : Prop :=
  c.loc.1 < 0 ∨ window_dim < c.loc.1 ∨ c.loc.2 < 0 ∨ window_dim < c.loc.2

open Classical in
/-- The non-bounce removal step of `move_centers` (`soap.py` lines 87-90):
`centers.difference_update(oob)` keeps exactly the centers that are not
out of bounds. -/
noncomputable def remove_oob (centers : List Center) : List Center :=
  centers.filter (fun c => decide (¬ oobPred c))

/-- The full non-bounce branch of `move_centers` (`soap.py` lines 87-93):
remove out-of-bounds centers, then friction and move the remainder. -/
noncomputable def advance_nobounce (centers : List Center) : List Center :=
  (remove_oob centers).map
    (fun c => Center.mk (c.loc + friction c.velocity) (friction c.velocity))

/-- `reset` (`soap.py` lines 254-263): each center is placed at
`random_sample(2) * (window_dim - 2 * max_vel) + max_vel` with zero
velocity.  The draws of `random_sample` (uniform in `[0, 1)`) are passed
in explicitly. -/
noncomputable def reset (samples : List (ℝ × ℝ)) : List Center :=
  samples.map
    (fun s => Center.mk
      (s.1 * (window_dim - 2 * max_vel) + max_vel,
       s.2 * (window_dim - 2 * max_vel) + max_vel)
      (0, 0))

end Soap

namespace Vor

/-- One component of `friction` (`voronoi.py` lines 30-40): multiply by the
friction constant, zero out below 0.01, then clamp per-axis to `[-15, 15]`
(the numpy masks act componentwise). -/
def friction1 (c : ℚ) : ℚ :=
  let c1 := 0.97 * c
  let c2 := if |c1| < 0.01 then 0 else c1
  let c3 := if c2 > 15 then 15 else c2
  if c3 < -15 then -15 else c3

/-- `friction` (`voronoi.py` lines 30-40) on a velocity vector. -/
def friction (v : ℚ × ℚ) : ℚ × ℚ := (friction1 v.1, friction1 v.2)

/-- A cell center of `voronoi.py` (class `Center`, lines 12-15), for the
purely rational operations (out-of-bounds bookkeeping, reset). -/
structure Center where
  loc : ℚ × ℚ
  velocity : ℚ × ℚ
deriving DecidableEq

/-- The out-of-bounds comprehension of `move_centers`
(`voronoi.py` lines 52-55):
`[center for center in centers for coor in center.loc if not 0 < coor < 1000]`.
A center appears once per out-of-bounds coordinate. -/
def oob (centers : List Center) : List Center :=
  centers.flatMap
    (fun c => (([c.loc.1, c.loc.2]).filter
      (fun coor => !(decide (0 < coor) && decide (coor < 1000)))).map
      (fun _ => c))

/-- `reset` (`voronoi.py` lines 171-176): each center is placed at
`(randint(0,999), randint(0,999))` cast to float, zero velocity.  The
integer draws of `randint` are passed in explicitly. -/
def reset (draws : List (ℤ × ℤ)) : List Center :=
  draws.map (fun d => Center.mk ((d.1 : ℚ), (d.2 : ℚ)) (0, 0))

/-- One step of the poke loop (`voronoi.py` lines 238-250) acting on one
center's velocity, with each float division modelled as checked division:
the epsilon substitution `if distance == 0: distance = .001`, the magnitude
`100000 / distance**2` capped at 200, and the velocity update
`center.velocity += poke_mag * difference/distance`. -/
noncomputable def poke_velocity_checked (loc cloc v : Soap.Vec) : Option Soap.Vec :=
  let difference := cloc - loc
  let distance := if Soap.vnorm difference = 0 then 0.001 else Soap.vnorm difference
  (Soap.cdiv 100000 (distance ^ 2)).bind fun pm0 =>
    let poke_mag := if pm0 > 200 then 200 else pm0
    (Soap.cdivV (Soap.smul poke_mag difference) distance).map fun dv => v + dv

/-- The value of the poke velocity update (`poke_velocity_checked` never
returns `none`, see `Vor.poke_velocity_checked_isSome`). -/
noncomputable def poke_velocity (loc cloc v : Soap.Vec) : Soap.Vec :=
  (poke_velocity_checked loc cloc v).getD v

/-- Python float modulo over the rationals, as in
`color_center.loc %= 1000` (`voronoi.py` line 73). -/
def wrap (x m : ℚ) : ℚ := x - m * ⌊x / m⌋

/-- The color-center portion of `move_centers` (`voronoi.py` lines 59-73):
with no directional flag set, friction then move; otherwise apply the
guarded 0.5-unit per-axis increments (note the source checks
`velocity[1] < 15` in the RIGHT branch) and move; finally wrap both
coordinates modulo 1000. -/
def move_focus (f : Soap.MoveFlags) (c : Center) : Center :=
  let c1 :=
    if ¬(f.up || f.down || f.lt || f.rt) then
      let v := friction c.velocity
      Center.mk (c.loc + v) v
    else
      let v1 := if f.up && decide (c.velocity.2 > -15) then
        (c.velocity.1, c.velocity.2 - 0.5) else c.velocity
      let v2 := if f.down && decide (v1.2 < 15) then (v1.1, v1.2 + 0.5) else v1
      let v3 := if f.lt && decide (v2.1 > -15) then (v2.1 - 0.5, v2.2) else v2
      let v4 := if f.rt && decide (v3.2 < 15) then (v3.1 + 0.5, v3.2) else v3
      Center.mk (c.loc + v4) v4
  Center.mk (wrap c1.loc.1 1000, wrap c1.loc.2 1000) c1.velocity

end Vor

namespace Adapter

/-!
The Voronoi partition-drawing step, identical in the two scripts
(`soap.py` lines 140-161, `voronoi.py` lines 98-119).  Coordinates of the
geometry library's output are embedded as rationals so the filtering logic
stays decidable; the scipy `Voronoi` construction itself is the external
black-box capability, so `draw_voronoi_cells` receives its outcome (a
result, or the raised `QhullError`/`ValueError`) as an argument.
-/

/-- The exceptions caught at the `Voronoi(points)` call site:
`except (QhullError, ValueError)` in `soap.py` (a bare `except:` in
`voronoi.py` catches these and everything else). -/
inductive GeomError
  | qhull
  | value

/-- The fields of a scipy `Voronoi` result used by the drawing code:
`points`, `vertices`, `point_region` and `regions` (in `regions`, the
index `-1` is the point-at-infinity sentinel). -/
structure VorResult where
  points : List (ℚ × ℚ)
  vertices : List (ℚ × ℚ)
  point_region : List ℕ
  regions : List (List ℤ)

/-- The region filter of the `polygons` comprehension:
`len(reg) > 3 or (len(reg) == 3 and -1 not in reg)`. -/
def keep (reg : List ℤ) : Bool :=
  decide (reg.length > 3) || (reg.length == 3 && !(reg.contains (-1)))

/-- The condition as the specification words it: more than 3 vertices
remain after removing the point-at-infinity sentinel, or there are exactly
3 vertices with no sentinel present.  Stated for comparison with `keep`. -/
def keepSpec (reg : List ℤ) : Bool :=
  decide ((reg.filter (fun j => j ≠ -1)).length > 3)
    || (reg.length == 3 && !(reg.contains (-1)))

/-- `vor.points[where(vor.point_region == i)]`: the generating points
whose region index is `i`. -/
def genPoints (vor : VorResult) (i : ℕ) : List (ℚ × ℚ) :=
  ((vor.points.zip vor.point_region).filter (fun pr => pr.2 == i)).map Prod.fst

/-- `[vor.vertices[j] for j in reg if j != -1]`: the region's finite
vertices (scipy region indices other than the `-1` sentinel are valid
nonnegative indices into `vertices`). -/
def finiteVerts (vor : VorResult) (reg : List ℤ) : List (ℚ × ℚ) :=
  reg.filterMap (fun j => if j = -1 then none else vor.vertices.get? j.toNat)

/-- The `polygons` comprehension (`soap.py` lines 158-161): for each
enumerated region passing `keep`, pair the generating points with the
finite vertex list. -/
def polygons (vor : VorResult) : List (List (ℚ × ℚ) × List (ℚ × ℚ)) :=
  (vor.regions.enum.filter (fun p => keep p.2)).map
    (fun p => (genPoints vor p.1, finiteVerts vor p.2))

/-- `draw_voronoi_cells` up to its drawable-region list: on a construction
failure the function returns early having drawn nothing (an empty region
list); on success it builds `polygons`.  The function is total: no
exception escapes. -/
def draw_voronoi_cells (outcome : Except GeomError VorResult) :
    List (List (ℚ × ℚ) × List (ℚ × ℚ)) :=
  match outcome with
  | .error _ => []
  | .ok vor => polygons vor

end Adapter

namespace Soap

/-- One channel of `get_color` (`soap.py` lines 131-135):
`(127 * sin(frequency * distance + offset) + 128).astype(int)`.
Numpy's `astype(int)` truncates toward zero; the value is at least 1, so
the truncation is the floor. -/
noncomputable def channel (phase offset : ℝ) : ℤ :=
  ⌊127 * Real.sin (0.01 * phase + offset) + 128⌋

/-- The channel formula as the specification words it, with `round` in
place of the code's float-to-int truncation.  Stated for comparison with
`channel`. -/
noncomputable def channel_spec (phase offset : ℝ) : ℤ :=
  round (127 * Real.sin (0.01 * phase + offset) + 128)

/-- `get_color` (`soap.py` lines 120-135) up to the palette transform: the
base color's three channels, with phase the distance from the color center
and offsets `(0, 2*pi/3, 4*pi/3)`. -/
noncomputable def get_color (ccLoc point : Vec) : ℤ × ℤ × ℤ :=
  (channel (vnorm (ccLoc - point)) 0,
   channel (vnorm (ccLoc - point)) (2 * Real.pi / 3),
   channel (vnorm (ccLoc - point)) (4 * Real.pi / 3))

end Soap

section SoapNormLemmas

/-- The norm of a scalar multiple. -/
theorem Soap.vnorm_smul (c : ℝ) (v : Soap.Vec) :
    Soap.vnorm (Soap.smul c v) = |c| * Soap.vnorm v := by
  unfold Soap.vnorm Soap.smul
  rw [show (c * v.1) ^ 2 + (c * v.2) ^ 2 = c ^ 2 * (v.1 ^ 2 + v.2 ^ 2) by ring]
  rw [Real.sqrt_mul (sq_nonneg c), Real.sqrt_sq_eq_abs]

/-- The norm is nonnegative. -/
theorem Soap.vnorm_nonneg (v : Soap.Vec) : 0 ≤ Soap.vnorm v :=
  Real.sqrt_nonneg _

/-- The clamp really does bound the norm by `max_vel`. -/
theorem Soap.vnorm_clamp_le (v : Soap.Vec) :
    Soap.vnorm (Soap.clamp v) ≤ Soap.max_vel := by
  unfold Soap.clamp
  by_cases h : Soap.vnorm v > Soap.max_vel
  · rw [if_pos h, Soap.vnorm_smul]
    have hv : 0 < Soap.vnorm v := lt_trans (by norm_num [Soap.max_vel]) h
    rw [abs_of_nonneg (div_nonneg (by norm_num [Soap.max_vel]) (Soap.vnorm_nonneg v))]
    rw [div_mul_cancel₀ _ (ne_of_gt hv)]
  · rw [if_neg h]
    exact le_of_not_lt h

end SoapNormLemmas

/-- `wrap` always lands in `[0, m)` for a positive modulus. -/
theorem Soap.wrap_mem_real (x m : ℝ) (hm : 0 < m) :
    0 ≤ Soap.wrap x m ∧ Soap.wrap x m < m := by
  have hw : Soap.wrap x m = m * Int.fract (x / m) := by
    unfold Soap.wrap Int.fract
    field_simp
  constructor
  · rw [hw]
    exact mul_nonneg hm.le (Int.fract_nonneg _)
  · rw [hw]
    calc m * Int.fract (x / m) < m * 1 :=
          (mul_lt_mul_left hm).mpr (Int.fract_lt_one _)
    _ = m := mul_one m

/-- Rational `wrap` always lands in `[0, m)` for a positive modulus. -/
theorem Vor.wrap_mem_rat (x m : ℚ) (hm : 0 < m) :
    0 ≤ Vor.wrap x m ∧ Vor.wrap x m < m := by
  have hw : Vor.wrap x m = m * Int.fract (x / m) := by
    unfold Vor.wrap Int.fract
    field_simp
  constructor
  · rw [hw]
    exact mul_nonneg hm.le (Int.fract_nonneg _)
  · rw [hw]
    calc m * Int.fract (x / m) < m * 1 :=
          (mul_lt_mul_left hm).mpr (Int.fract_lt_one _)
    _ = m := mul_one m

/-- `poke_power_checked` never fails: the `distance != 0` guard protects the
division by `distance**3`. -/
theorem Soap.poke_power_checked_isSome (p c : Soap.Vec) :
    ∃ w, Soap.poke_power_checked p c = some w := by
  unfold Soap.poke_power_checked
  by_cases h : Soap.vnorm (c - p) = 0
  · rw [if_neg (by simpa using h)]
    exact ⟨(0, 0), rfl⟩
  · rw [if_pos (by simpa using h)]
    unfold Soap.cdivV
    rw [if_neg (pow_ne_zero 3 h)]
    exact ⟨_, rfl⟩

/-- The `voronoi.py` poke never fails: the epsilon substitution
`if distance == 0: distance = .001` protects both divisions. -/
theorem Vor.poke_velocity_checked_isSome (loc cloc v : Soap.Vec) :
    ∃ w, Vor.poke_velocity_checked loc cloc v = some w := by
  unfold Vor.poke_velocity_checked
  have hd : (if Soap.vnorm (cloc - loc) = 0 then (0.001 : ℝ)
      else Soap.vnorm (cloc - loc)) ≠ 0 := by
    by_cases h : Soap.vnorm (cloc - loc) = 0
    · rw [if_pos h]; norm_num
    · rw [if_neg h]; exact h
  unfold Soap.cdiv Soap.cdivV
  simp only [if_neg (pow_ne_zero 2 hd), if_neg hd, Option.some_bind, Option.map_some']
  exact ⟨_, rfl⟩


/-- Membership in the `voronoi.py` out-of-bounds comprehension: a center is
listed exactly when some coordinate fails `0 < coor < 1000`. -/
theorem Vor.mem_oob (cs : List Vor.Center) (c : Vor.Center) :
    c ∈ Vor.oob cs ↔ c ∈ cs ∧
      (c.loc.1 ≤ 0 ∨ 1000 ≤ c.loc.1 ∨ c.loc.2 ≤ 0 ∨ 1000 ≤ c.loc.2) := by
  unfold Vor.oob
  rw [List.mem_flatMap]
  constructor
  · rintro ⟨a, ha, hc⟩
    rw [List.mem_map] at hc
    obtain ⟨coor, hcoor, rfl⟩ := hc
    rw [List.mem_filter] at hcoor
    obtain ⟨hcl, hcond⟩ := hcoor
    refine ⟨ha, ?_⟩
    simp only [Bool.not_eq_eq_eq_not, Bool.not_true, Bool.and_eq_false_imp,
      decide_eq_true_eq, decide_eq_false_iff_not, not_lt] at hcond
    simp only [List.mem_cons, List.not_mem_nil, or_false] at hcl
    rcases hcl with h1 | h1
    · by_cases h0 : 0 < coor
      · right; left; rw [h1] at h0 hcond; exact hcond h0
      · left; rw [h1] at h0; exact le_of_not_lt h0
    · by_cases h0 : 0 < coor
      · right; right; right; rw [h1] at h0 hcond; exact hcond h0
      · right; right; left; rw [h1] at h0; exact le_of_not_lt h0
  · rintro ⟨hc, hcond⟩
    refine ⟨c, hc, ?_⟩
    rw [List.mem_map]
    rcases hcond with h | h | h | h
    · exact ⟨c.loc.1, List.mem_filter.mpr ⟨by simp, by simp [not_lt.mpr h]⟩, rfl⟩
    · exact ⟨c.loc.1, List.mem_filter.mpr ⟨by simp, by simp [not_lt.mpr h]⟩, rfl⟩
    · exact ⟨c.loc.2, List.mem_filter.mpr ⟨by simp, by simp [not_lt.mpr h]⟩, rfl⟩
    · exact ⟨c.loc.2, List.mem_filter.mpr ⟨by simp, by simp [not_lt.mpr h]⟩, rfl⟩

/-- Claim C1: on every point set for which the external partition
construction fails (the `Voronoi` call raises `QhullError` or `ValueError`,
as it does for fewer than 3 distinct non-collinear points or otherwise
degenerate input), `draw_voronoi_cells` produces an empty drawable region
list for the frame; the exception is caught at the call site and the
function returns normally, so nothing propagates to the frame loop. -/
theorem c1_partition_failure_empty_regions (e : Adapter.GeomError) :
    Adapter.draw_voronoi_cells (Except.error e) = [] := rfl

/-- A Voronoi result with a single region `[0, 1, 2, -1]`: four raw
indices, one of them the point-at-infinity sentinel, so three finite
vertices remain. -/
def c2vor : Adapter.VorResult :=
  ⟨[(5, 5)], [(0, 0), (1, 0), (0, 1)], [0], [[0, 1, 2, -1]]⟩

/-- Claim C2 counterexample: the code keeps the region `[0, 1, 2, -1]`
(its raw length 4 exceeds 3), pairing it with its generating point and its
3 finite vertices — but the claim's condition (more than 3 vertices after
sentinel removal, or exactly 3 with no sentinel) rejects it, since only 3
finite vertices remain and the sentinel is present. -/
theorem c2_keep_counterexample :
    Adapter.polygons c2vor = [([(5, 5)], [(0, 0), (1, 0), (0, 1)])] ∧
    Adapter.keepSpec [0, 1, 2, -1] = false := by decide

/-- Claim C2 (amended): a region is kept for drawing iff its raw index
list (sentinel included) has length greater than 3, or length exactly 3
with no sentinel present; every kept region is paired with its generating
points and its finite vertex list. -/
theorem c2_keep_characterization (vor : Adapter.VorResult)
    (pr : List (ℚ × ℚ) × List (ℚ × ℚ)) :
    pr ∈ Adapter.polygons vor ↔
      ∃ i reg, vor.regions[i]? = some reg ∧ Adapter.keep reg = true ∧
        pr = (Adapter.genPoints vor i, Adapter.finiteVerts vor reg) := by
  unfold Adapter.polygons
  rw [List.mem_map]
  constructor
  · rintro ⟨⟨i, reg⟩, hmem, rfl⟩
    rw [List.mem_filter] at hmem
    obtain ⟨hmem, hk⟩ := hmem
    rw [List.mk_mem_enum_iff_getElem?] at hmem
    exact ⟨i, reg, hmem, hk, rfl⟩
  · rintro ⟨i, reg, hget, hk, rfl⟩
    exact ⟨(i, reg),
      List.mem_filter.mpr ⟨List.mk_mem_enum_iff_getElem?.mpr hget, hk⟩, rfl⟩

/-- The boundary center used against claim C7: it sits exactly on the left
arena edge, inside the closed arena (not strictly outside on any axis). -/
def c7cex : Vor.Center := Vor.Center.mk (0, 500) (0, 0)

/-- Claim C7 counterexample: in the `voronoi.py` variant, the non-bounce
advance lists the boundary center `(0, 500)` for removal (its coordinate
fails `0 < coor < 1000`) although it is not strictly outside the arena on
any axis, so removal is not restricted to strictly-outside centers. -/
theorem c7_boundary_removal_counterexample :
    c7cex ∈ Vor.oob [c7cex] ∧
    ¬(c7cex.loc.1 < 0 ∨ 1000 < c7cex.loc.1 ∨
      c7cex.loc.2 < 0 ∨ 1000 < c7cex.loc.2) := by decide

/-- Claim C7 (amended): in the `soap.py` variant, the non-bounce removal
keeps exactly the centers not strictly outside the arena (strict
inequality on either axis), and the advance then moves exactly those
survivors; in the `voronoi.py` variant, a center is listed for removal
exactly when some coordinate is `≤ 0` or `≥ 1000`, so centers on the arena
boundary are removed as well. -/
theorem c7_oob_removal_amended :
    (∀ (cs : List Soap.Center) (c : Soap.Center),
      c ∈ Soap.remove_oob cs ↔ c ∈ cs ∧ ¬ Soap.oobPred c) ∧
    (∀ (cs : List Vor.Center) (c : Vor.Center),
      c ∈ Vor.oob cs ↔ c ∈ cs ∧
        (c.loc.1 ≤ 0 ∨ 1000 ≤ c.loc.1 ∨ c.loc.2 ≤ 0 ∨ 1000 ≤ c.loc.2)) := by
  constructor
  · intro cs c
    unfold Soap.remove_oob
    classical
    simp only [List.mem_filter, decide_eq_true_eq]
  · exact Vor.mem_oob

/-- Claim C8 counterexample: in the `voronoi.py` variant, the `randint`
draw `(0, 500)` (a legitimate outcome of `randint(0, 999)`) places a
center at `(0, 500)`, which is not inside the arena inset by the velocity
cap (its first coordinate is below 15); that center is moreover already
listed as out of bounds by the variant's own non-bounce removal. -/
theorem c8_reset_counterexample :
    (Vor.reset [(0, 500)]).length = 1 ∧
    (∀ c ∈ Vor.reset [(0, 500)], c.loc = (0, 500) ∧ ¬(15 ≤ c.loc.1)) ∧
    (∀ c ∈ Vor.reset [(0, 500)], c ∈ Vor.oob (Vor.reset [(0, 500)])) := by
  decide

/-- Claim C8 (amended): in the `soap.py` variant, `reset` on `count` draws
of `random_sample` (each coordinate in `[0, 1)`) yields exactly `count`
centers, each with zero velocity and each positioned inside the arena
inset by the velocity cap on every axis; in the `voronoi.py` variant,
`reset` yields one zero-velocity center per `randint` draw placed at the
draw itself, with no inset, so a center can be born on the removal
boundary. -/
theorem c8_reset_amended :
    (∀ samples : List (ℝ × ℝ),
      (∀ s ∈ samples, 0 ≤ s.1 ∧ s.1 < 1 ∧ 0 ≤ s.2 ∧ s.2 < 1) →
      (Soap.reset samples).length = samples.length ∧
      ∀ c ∈ Soap.reset samples, c.velocity = (0, 0) ∧
        Soap.max_vel ≤ c.loc.1 ∧ c.loc.1 < Soap.window_dim - Soap.max_vel ∧
        Soap.max_vel ≤ c.loc.2 ∧ c.loc.2 < Soap.window_dim - Soap.max_vel) ∧
    (∀ draws : List (ℤ × ℤ),
      (Vor.reset draws).length = draws.length ∧
      ∀ c ∈ Vor.reset draws, c.velocity = (0, 0) ∧
        ∃ d ∈ draws, c.loc = ((d.1 : ℚ), (d.2 : ℚ))) := by
  constructor
  · intro samples hs
    refine ⟨List.length_map _ _, ?_⟩
    intro c hc
    rw [Soap.reset, List.mem_map] at hc
    obtain ⟨s, hsmem, rfl⟩ := hc
    obtain ⟨h1, h2, h3, h4⟩ := hs s hsmem
    refine ⟨rfl, ?_, ?_, ?_, ?_⟩ <;>
      simp only [Soap.max_vel, Soap.window_dim] <;> nlinarith
  · intro draws
    refine ⟨List.length_map _ _, ?_⟩
    intro c hc
    rw [Vor.reset, List.mem_map] at hc
    obtain ⟨d, hdmem, rfl⟩ := hc
    exact ⟨rfl, d, hdmem, rfl⟩

/-- Witness for claim C8's amended theorem at the concrete draw list
`[(1/2, 1/2)]`: a single center with zero velocity, inside the inset
arena. -/
theorem c8_reset_witness :
    (Soap.reset [(1/2, 1/2)]).length = [((1/2 : ℝ), (1/2 : ℝ))].length ∧
    ∀ c ∈ Soap.reset [(1/2, 1/2)], c.velocity = (0, 0) ∧
      Soap.max_vel ≤ c.loc.1 ∧ c.loc.1 < Soap.window_dim - Soap.max_vel ∧
      Soap.max_vel ≤ c.loc.2 ∧ c.loc.2 < Soap.window_dim - Soap.max_vel :=
  c8_reset_amended.1 [(1/2, 1/2)] (by
    intro s hs
    rw [List.mem_singleton] at hs
    rw [hs]
    norm_num)

/-- Claim C5: applying an impulse never divides by zero, in particular at a
location equal to a center's exact current position.  In `soap.py` the
`distance != 0` guard routes the zero-distance case to the `else 0` branch
before any division; in `voronoi.py` the epsilon substitution
`if distance == 0: distance = .001` makes every divisor nonzero.  With
every float division modelled as checked division, both poke computations
always return a value. -/
theorem c5_poke_no_division_by_zero :
    (∀ p c : Soap.Vec, ∃ w, Soap.poke_power_checked p c = some w) ∧
    (∀ loc cloc v : Soap.Vec, ∃ w, Vor.poke_velocity_checked loc cloc v = some w) :=
  ⟨Soap.poke_power_checked_isSome, Vor.poke_velocity_checked_isSome⟩

/-- The Euclidean norm of the zero vector is zero. -/
theorem Soap.vnorm_zero : Soap.vnorm ((0 : ℝ), (0 : ℝ)) = 0 := by
  unfold Soap.vnorm
  norm_num

/-- At zero distance `poke_power` returns the zero force vector. -/
theorem Soap.poke_power_self (l : Soap.Vec) : Soap.poke_power l l = (0, 0) := by
  unfold Soap.poke_power Soap.poke_power_checked
  have h : Soap.vnorm (l - l) = 0 := by
    rw [sub_self]
    exact Soap.vnorm_zero
  rw [if_neg (by simpa using h)]
  rfl

/-- The clamp is the identity on velocities within the cap. -/
theorem Soap.clamp_eq_self (v : Soap.Vec) (h : Soap.vnorm v ≤ Soap.max_vel) :
    Soap.clamp v = v := by
  unfold Soap.clamp
  rw [if_neg (not_lt.mpr h)]

/-- Claim C10: an impulse applied at a center's exact position leaves that
center's velocity unchanged.  In `soap.py` the zero-distance guard returns
the zero force, and `delta_velocity` with a zero delta re-clamps a
velocity already within the cap to itself; in `voronoi.py` the update adds
`poke_mag * difference/distance` with `difference` the zero vector, a
no-op unconditionally. -/
theorem c10_self_poke_noop :
    (∀ c : Soap.Center, Soap.vnorm c.velocity ≤ Soap.max_vel →
      Soap.poke_center c.loc c = c) ∧
    (∀ loc v : Soap.Vec, Vor.poke_velocity loc loc v = v) := by
  constructor
  · intro c hc
    unfold Soap.poke_center Soap.delta_velocity
    rw [Soap.poke_power_self]
    have hadd : c.velocity + ((0 : ℝ), (0 : ℝ)) = c.velocity := by
      rw [show ((0 : ℝ), (0 : ℝ)) = (0 : Soap.Vec) from rfl, add_zero]
    rw [hadd, Soap.clamp_eq_self c.velocity hc]
  · intro loc v
    have hdiff : loc - loc = ((0 : ℝ), (0 : ℝ)) := by
      rw [sub_self]
      rfl
    unfold Vor.poke_velocity Vor.poke_velocity_checked Soap.cdiv Soap.cdivV
      Soap.smul
    simp only [hdiff, Soap.vnorm_zero]
    norm_num

/-- Witness for claim C10 at the center `((1, 2), (0, 0))` and, for the
`voronoi.py` part, the poke location `(5, 5)` with velocity `(1, 2)`. -/
theorem c10_self_poke_witness :
    Soap.poke_center (Soap.Center.mk (1, 2) (0, 0)).loc
      (Soap.Center.mk (1, 2) (0, 0)) = Soap.Center.mk (1, 2) (0, 0) ∧
    Vor.poke_velocity (5, 5) (5, 5) (1, 2) = ((1 : ℝ), (2 : ℝ)) :=
  ⟨c10_self_poke_noop.1 (Soap.Center.mk (1, 2) (0, 0))
    (by rw [show (Soap.Center.mk ((1 : ℝ), (2 : ℝ)) (0, 0)).velocity =
          ((0 : ℝ), (0 : ℝ)) from rfl, Soap.vnorm_zero]
        norm_num [Soap.max_vel]),
   c10_self_poke_noop.2 (5, 5) (1, 2)⟩

/-- The per-axis friction of `voronoi.py` leaves each component within
`[-15, 15]`. -/
theorem Vor.abs_friction1_le (c : ℚ) : |Vor.friction1 c| ≤ 15 := by
  simp only [Vor.friction1]
  split_ifs <;> rw [abs_le] <;> constructor <;> linarith

/-- After `move_focus`, the `soap.py` focus velocity is the output of a
clamping operation (`friction` or `delta_velocity`), hence within the cap. -/
theorem Soap.move_focus_velocity_le (f : Soap.MoveFlags) (c : Soap.Center) :
    Soap.vnorm (Soap.move_focus f c).velocity ≤ Soap.max_vel := by
  obtain ⟨u, d, l, r⟩ := f
  cases u <;> cases d <;> cases l <;> cases r <;>
    simp only [Soap.move_focus, Soap.friction, Soap.delta_velocity,
      Bool.or_self, Bool.or_true, Bool.true_or, Bool.or_false, Bool.false_or,
      not_true, not_false_iff, if_true, if_false, ite_true, ite_false,
      Bool.false_eq_true, Bool.true_eq_false] <;>
    exact Soap.vnorm_clamp_le _

/-- Claim C3 counterexample: in the `voronoi.py` variant, a poke at
`(0, 0)` gives the center at distance 1 the velocity `(200, 0)` — the
impulse application performs no re-clamp, so the per-axis magnitude 200
far exceeds the configured maximum 15. -/
theorem c3_poke_exceeds_cap_counterexample :
    Vor.poke_velocity (0, 0) (1, 0) (0, 0) = ((200 : ℝ), 0) ∧
    ¬(|(Vor.poke_velocity (0, 0) (1, 0) (0, 0)).1| ≤ 15) := by
  have hdiff : ((1 : ℝ), (0 : ℝ)) - (0, 0) = ((1 : ℝ), (0 : ℝ)) := by
    norm_num
  have hnorm : Soap.vnorm ((1 : ℝ), (0 : ℝ)) = 1 := by
    unfold Soap.vnorm
    norm_num
  have key : Vor.poke_velocity (0, 0) (1, 0) (0, 0) = ((200 : ℝ), 0) := by
    unfold Vor.poke_velocity Vor.poke_velocity_checked Soap.cdiv Soap.cdivV
      Soap.smul
    simp only [hdiff, hnorm]
    norm_num
  refine ⟨key, ?_⟩
  rw [key]
  norm_num

/-- Claim C3 (amended): the friction/clamp step bounds the velocity in both
variants (vector norm in `soap.py`, per-axis in `voronoi.py`), and in
`soap.py` the impulse application (`delta_velocity`) and the focus-center
movement also re-clamp; in the `voronoi.py` variant the impulse
application performs no re-clamp and can leave the per-axis magnitude
above the configured maximum. -/
theorem c3_velocity_cap_amended :
    (∀ v : Soap.Vec, Soap.vnorm (Soap.friction v) ≤ Soap.max_vel) ∧
    (∀ v d : Soap.Vec, Soap.vnorm (Soap.delta_velocity v d) ≤ Soap.max_vel) ∧
    (∀ (f : Soap.MoveFlags) (c : Soap.Center),
      Soap.vnorm (Soap.move_focus f c).velocity ≤ Soap.max_vel) ∧
    (∀ v : ℚ × ℚ, |(Vor.friction v).1| ≤ 15 ∧ |(Vor.friction v).2| ≤ 15) :=
  ⟨fun _ => Soap.vnorm_clamp_le _,
   fun _ _ => Soap.vnorm_clamp_le _,
   Soap.move_focus_velocity_le,
   fun _ => ⟨Vor.abs_friction1_le _, Vor.abs_friction1_le _⟩⟩

/-- Each component of the `voronoi.py` friction output is exactly zero or
at least the 0.01 jitter threshold in absolute value: the per-axis clamp
only ever replaces a component by ±15, never by a small nonzero value. -/
theorem Vor.friction1_zero_or_eps (c : ℚ) :
    Vor.friction1 c = 0 ∨ 0.01 ≤ |Vor.friction1 c| := by
  simp only [Vor.friction1]
  split_ifs with h1 h2 h3 h4 h5 h6 <;>
    first
      | (left; rfl)
      | (exfalso; linarith)
      | (right; exact not_lt.mp h1)
      | (right; rw [abs_of_nonneg (by norm_num : (0 : ℚ) ≤ 15)]; norm_num)
      | (right; rw [abs_of_nonpos (by norm_num : (-15 : ℚ) ≤ 0)]; norm_num)

/-- Each component of the `soap.py` jitter-prevention step is exactly zero
or at least 0.01 in absolute value. -/
theorem Soap.zero_small_zero_or_eps (v : Soap.Vec) :
    ((Soap.zero_small v).1 = 0 ∨ 0.01 ≤ |(Soap.zero_small v).1|) ∧
    ((Soap.zero_small v).2 = 0 ∨ 0.01 ≤ |(Soap.zero_small v).2|) := by
  unfold Soap.zero_small
  constructor
  · dsimp only
    split_ifs with h
    · left; rfl
    · right; exact not_lt.mp h
  · dsimp only
    split_ifs with h
    · left; rfl
    · right; exact not_lt.mp h

/-- Claim C4 counterexample: for the `soap.py` friction at velocity
`(4000/97, 15999999/194)`, the multiplicative step gives `(40, 79999.995)`,
the zeroing step leaves it unchanged (both components exceed 0.01), and
the subsequent norm clamp rescales by `15 / 80000.005`, leaving the first
component equal to `120000/16000001 ≈ 0.0075`: a nonzero component whose
absolute value is below the 0.01 epsilon threshold survives the completed
friction step. -/
theorem c4_norm_clamp_below_eps_counterexample :
    0 < (Soap.friction ((4000 / 97 : ℝ), (15999999 / 194 : ℝ))).1 ∧
    (Soap.friction ((4000 / 97 : ℝ), (15999999 / 194 : ℝ))).1 < 0.01 := by
  have hsm : Soap.smul 0.97 ((4000 / 97 : ℝ), (15999999 / 194 : ℝ))
      = (40, 15999999 / 200) := by
    unfold Soap.smul
    norm_num
  have h40 : ¬(|(40 : ℝ)| < 0.01) := by
    rw [abs_of_nonneg (by norm_num : (0 : ℝ) ≤ 40)]
    norm_num
  have hbig : ¬(|(15999999 / 200 : ℝ)| < 0.01) := by
    rw [abs_of_nonneg (by norm_num : (0 : ℝ) ≤ 15999999 / 200)]
    norm_num
  have hz : Soap.zero_small ((40 : ℝ), (15999999 / 200 : ℝ))
      = (40, 15999999 / 200) := by
    unfold Soap.zero_small
    dsimp only
    rw [if_neg h40, if_neg hbig]
  have hn : Soap.vnorm ((40 : ℝ), (15999999 / 200 : ℝ)) = 16000001 / 200 := by
    unfold Soap.vnorm
    dsimp only
    rw [show (40 : ℝ) ^ 2 + (15999999 / 200) ^ 2 = (16000001 / 200) ^ 2 by
      norm_num]
    exact Real.sqrt_sq (by norm_num)
  have hfr : Soap.friction ((4000 / 97 : ℝ), (15999999 / 194 : ℝ))
      = Soap.smul (Soap.max_vel / (16000001 / 200)) (40, 15999999 / 200) := by
    unfold Soap.friction
    rw [hsm, hz]
    unfold Soap.clamp
    rw [hn, if_pos (by norm_num [Soap.max_vel])]
  rw [hfr]
  unfold Soap.smul
  dsimp only
  constructor <;> norm_num [Soap.max_vel]

/-- Claim C4 (amended): the jitter-prevention zeroing itself guarantees
that every component is exactly zero or at least 0.01 in absolute value,
and in the `voronoi.py` variant this survives the whole friction step
(the per-axis clamp only replaces components by ±15); in the `soap.py`
variant the subsequent vector-norm clamp can rescale a component to a
nonzero value below the 0.01 threshold. -/
theorem c4_epsilon_zeroing_amended :
    (∀ v : ℚ × ℚ,
      ((Vor.friction v).1 = 0 ∨ 0.01 ≤ |(Vor.friction v).1|) ∧
      ((Vor.friction v).2 = 0 ∨ 0.01 ≤ |(Vor.friction v).2|)) ∧
    (∀ v : Soap.Vec,
      ((Soap.zero_small v).1 = 0 ∨ 0.01 ≤ |(Soap.zero_small v).1|) ∧
      ((Soap.zero_small v).2 = 0 ∨ 0.01 ≤ |(Soap.zero_small v).2|)) :=
  ⟨fun v => ⟨Vor.friction1_zero_or_eps v.1, Vor.friction1_zero_or_eps v.2⟩,
   Soap.zero_small_zero_or_eps⟩

/-- Claim C6: after the focus-movement step of a frame, the focus center's
position lies within `[0, window_dim) x [0, window_dim)` — the final
modulo wrap guarantees this for any prior position and any velocity, in
both variants.  The wrap is the only boundary treatment applied to the
focus center: it is not subject to the out-of-bounds removal or to the
bounce reflection, which act only on the ordinary center set. -/
theorem c6_focus_wrap_invariant :
    (∀ (f : Soap.MoveFlags) (c : Soap.Center),
      0 ≤ (Soap.move_focus f c).loc.1 ∧
      (Soap.move_focus f c).loc.1 < Soap.window_dim ∧
      0 ≤ (Soap.move_focus f c).loc.2 ∧
      (Soap.move_focus f c).loc.2 < Soap.window_dim) ∧
    (∀ (f : Soap.MoveFlags) (c : Vor.Center),
      0 ≤ (Vor.move_focus f c).loc.1 ∧ (Vor.move_focus f c).loc.1 < 1000 ∧
      0 ≤ (Vor.move_focus f c).loc.2 ∧ (Vor.move_focus f c).loc.2 < 1000) := by
  constructor
  · intro f c
    have h800 : (0 : ℝ) < Soap.window_dim := by norm_num [Soap.window_dim]
    unfold Soap.move_focus
    dsimp only
    exact ⟨(Soap.wrap_mem_real _ _ h800).1, (Soap.wrap_mem_real _ _ h800).2,
      (Soap.wrap_mem_real _ _ h800).1, (Soap.wrap_mem_real _ _ h800).2⟩
  · intro f c
    have h1000 : (0 : ℚ) < 1000 := by norm_num
    unfold Vor.move_focus
    dsimp only
    exact ⟨(Vor.wrap_mem_rat _ _ h1000).1, (Vor.wrap_mem_rat _ _ h1000).2,
      (Vor.wrap_mem_rat _ _ h1000).1, (Vor.wrap_mem_rat _ _ h1000).2⟩

/-- Claim C9 (amended): the base color's channels are
`floor(127*sin(0.01*phase + offset) + 128)` for offsets
`(0, 2*pi/3, 4*pi/3)` — numpy's `astype(int)` truncates the nonnegative
value, i.e. takes the floor, not the round — and every channel value lies
in `[1, 255]` with no explicit clamping, since the sinusoid keeps the
pre-truncation value in `[1, 255]`. -/
theorem c9_color_channel_amended :
    (∀ ccLoc point : Soap.Vec,
      Soap.get_color ccLoc point =
        (Soap.channel (Soap.vnorm (ccLoc - point)) 0,
         Soap.channel (Soap.vnorm (ccLoc - point)) (2 * Real.pi / 3),
         Soap.channel (Soap.vnorm (ccLoc - point)) (4 * Real.pi / 3))) ∧
    (∀ phase offset : ℝ,
      1 ≤ Soap.channel phase offset ∧ Soap.channel phase offset ≤ 255) := by
  refine ⟨fun _ _ => rfl, fun phase offset => ?_⟩
  have h1 : -1 ≤ Real.sin (0.01 * phase + offset) := Real.neg_one_le_sin _
  have h2 : Real.sin (0.01 * phase + offset) ≤ 1 := Real.sin_le_one _
  unfold Soap.channel
  constructor
  · rw [Int.le_floor]
    push_cast
    nlinarith
  · have hle : (127 : ℝ) * Real.sin (0.01 * phase + offset) + 128 ≤ 255 := by
      nlinarith
    have hf := (Int.floor_le
      (127 * Real.sin (0.01 * phase + offset) + 128)).trans hle
    exact_mod_cast hf

/-- Claim C9 counterexample: at phase 0 (the queried point coincides with
the color center) and offset `2*pi/3`, the pre-truncation value is
`127*(sqrt 3)/2 + 128 ≈ 237.99`, so the code's channel (a floor) is 237
while the claim's `round` formula gives 238. -/
theorem c9_round_counterexample :
    (Soap.get_color ((0 : ℝ), (0 : ℝ)) (0, 0)).2.1 = 237 ∧
    Soap.channel_spec (Soap.vnorm (((0 : ℝ), (0 : ℝ)) - (0, 0)))
      (2 * Real.pi / 3) = 238 := by
  have hd : Soap.vnorm (((0 : ℝ), (0 : ℝ)) - (0, 0)) = 0 := by
    rw [show (((0 : ℝ), (0 : ℝ)) - (0, 0)) = ((0 : ℝ), (0 : ℝ)) by norm_num]
    exact Soap.vnorm_zero
  have hsin : Real.sin (0.01 * 0 + 2 * Real.pi / 3) = Real.sqrt 3 / 2 := by
    rw [show (0.01 * 0 + 2 * Real.pi / 3 : ℝ) = Real.pi - Real.pi / 3 by ring]
    rw [Real.sin_pi_sub, Real.sin_pi_div_three]
  have hsl : Real.sqrt 3 < 220 / 127 := by
    rw [Real.sqrt_lt' (by norm_num : (0 : ℝ) < 220 / 127)]
    norm_num
  have hsg : (219 / 127 : ℝ) ≤ Real.sqrt 3 := by
    rw [Real.le_sqrt (by norm_num) (by norm_num)]
    norm_num
  have hval : (237.5 : ℝ) ≤ 127 * (Real.sqrt 3 / 2) + 128 := by nlinarith
  have hval2 : 127 * (Real.sqrt 3 / 2) + 128 < 238 := by nlinarith
  constructor
  · unfold Soap.get_color
    dsimp only
    rw [hd]
    unfold Soap.channel
    rw [hsin, Int.floor_eq_iff]
    push_cast
    constructor
    · nlinarith
    · nlinarith
  · rw [hd]
    unfold Soap.channel_spec
    rw [hsin, round_eq, Int.floor_eq_iff]
    push_cast
    constructor
    · nlinarith
    · nlinarith
